import Mathlib

/-!
Shallow embedding of the scan-processing core of the
Deepfake-Detection-Authenticity-Verification-System repository.

JavaScript numbers are modelled as rationals (`ℚ`); the code under
verification performs only +, -, *, /, `Math.pow(_, 2)`, `Math.round`
and `Math.min`, all exact on rationals.  `Math.round` in JavaScript
rounds half-way cases toward positive infinity, modelled by `jsRound`.

Fields of JavaScript objects are read through `a || b || default`
chains in the source, where `0`, `undefined` and `""` are falsy.
Predictions are modelled in their camel-case shape (the shape the
inference client produces), with every field present; under that model
`p.riskScore || p.risk_score || 0` collapses to `p.riskScore` (both
sides are `0` when the field is `0`), while
`p.temporalConsistency || p.temporal_consistency || 100` becomes
`jsOr p.temporalConsistency 100` (a zero temporal score falls through
to the default `100`), and the string chain
`modelVersion || model_version || 'v1'` becomes `jsOrS _ "v1"`.
-/

namespace DeepfakeDetection

/-- JavaScript `Math.round`: round to the nearest integer, halves toward `+∞`. -/
def jsRound (q : ℚ) : ℤ := ⌊q + 1/2⌋

/-- JavaScript `a || d` on numbers with `a` present: `0` is falsy. -/
def jsOr (a d : ℚ) : ℚ := if a = 0 then d else a

/-- JavaScript `a || d` on strings with `a` present: `""` is falsy. -/
def jsOrS (a d : String) : String := if a = "" then d else a

/-- One per-unit scoring result, camel-case shape (see module docstring). -/
structure Prediction where
  riskScore : ℚ
  confidence : ℚ
  videoScore : ℚ
  audioScore : ℚ
  ganFingerprint : ℚ
  temporalConsistency : ℚ
  modelVersion : String
deriving DecidableEq, Repr

/-- The object returned by `aggregatePredictions`. -/
structure AggregateResult where
  riskScore : ℚ
  confidence : ℚ
  videoScore : ℚ
  audioScore : ℚ
  ganFingerprint : ℚ
  temporalConsistency : ℚ
  frameCount : ℕ
  variance : ℚ
  uncertainty : ℚ
  modelVersion : String
deriving DecidableEq, Repr

/-- `const mean = arr => arr.reduce((a, b) => a + b, 0) / arr.length;` -/
def mean (arr : List ℚ) : ℚ := arr.sum / arr.length

/-- `const variance = arr => { const m = mean(arr);
     return arr.reduce((sum, val) => sum + Math.pow(val - m, 2), 0) / arr.length; };` -/
def listVariance (arr : List ℚ) : ℚ :=
  let m := mean arr
  (arr.map (fun val => (val - m) ^ 2)).sum / arr.length

/-- `const totalConfidence = confidences.reduce((a, b) => a + b, 0);` -/
def totalConfidence (ps : List Prediction) : ℚ := (ps.map (·.confidence)).sum

/-- `predictions.reduce((sum, pred, idx) => { const weight = confidences[idx] /
    totalConfidence; return sum + (pred.riskScore || pred.risk_score || 0) * weight; }, 0)`.
    (When `totalConfidence = 0` the JavaScript value is `NaN`; theorems about
    the risk score therefore assume a positive total confidence.) -/
def weightedRiskScore (ps : List Prediction) : ℚ :=
  (ps.map (fun p => p.riskScore * (p.confidence / totalConfidence ps))).sum

/-- `Math.round(riskVariance * 100) / 100`, the two-decimal rounding the
    source applies to the variance field. -/
def round2 (v : ℚ) : ℚ := (jsRound (v * 100) : ℚ) / 100

/-- `Math.round(Math.min(100, riskVariance * 10))`: the uncertainty the
    aggregator reports for a given risk-score variance. -/
def uncertaintyOf (v : ℚ) : ℚ := (jsRound (min 100 (v * 10)) : ℤ)

/-- The `predictions.length > 1` branch of `aggregatePredictions`
    (lines 30-65 of `detection.agent.js`), with the prediction list
    written as `p₀ :: p₁ :: rest` so that it has at least two elements. -/
def aggregateMulti (p₀ p₁ : Prediction) (rest : List Prediction) : AggregateResult :=
  let ps := p₀ :: p₁ :: rest
  let riskScores := ps.map (·.riskScore)
  let confidences := ps.map (·.confidence)
  let videoScores := ps.map (·.videoScore)
  let riskVariance := listVariance riskScores
  { riskScore := (jsRound (weightedRiskScore ps) : ℤ)
    confidence := (jsRound (mean confidences) : ℤ)
    videoScore := (jsRound (mean videoScores) : ℤ)
    audioScore := p₀.audioScore
    ganFingerprint := (jsRound (mean (ps.map (·.ganFingerprint))) : ℤ)
    temporalConsistency := (jsRound (mean (ps.map (fun p => jsOr p.temporalConsistency 100))) : ℤ)
    frameCount := ps.length
    variance := round2 riskVariance
    uncertainty := uncertaintyOf riskVariance
    modelVersion := jsOrS p₀.modelVersion "v1" }

/-- `aggregatePredictions` from `detection.agent.js`.  The `Option` input
    models the `!predictions` (null/undefined) check; `Except.error` models
    `throw new Error(...)`. -/
def aggregatePredictions (predictions : Option (List Prediction)) :
    Except String AggregateResult :=
  match predictions with
  | none => .error "No predictions to aggregate"
  | some [] => .error "No predictions to aggregate"
  | some [p] =>
      .ok { riskScore := p.riskScore
            confidence := p.confidence
            videoScore := p.videoScore
            audioScore := p.audioScore
            ganFingerprint := p.ganFingerprint
            temporalConsistency := p.temporalConsistency
            frameCount := 1
            variance := 0
            uncertainty := 0
            modelVersion := p.modelVersion }
  | some (p₀ :: p₁ :: rest) => .ok (aggregateMulti p₀ p₁ rest)

/-- `Math.min(...scores)` over a non-empty list (`0` on the empty list). -/
def listMin : List ℚ → ℚ
  | [] => 0
  | x :: xs => xs.foldl min x

/-- `Math.max(...scores)` over a non-empty list (`0` on the empty list). -/
def listMax : List ℚ → ℚ
  | [] => 0
  | x :: xs => xs.foldl max x

/-! ### Concrete predictions used as inputs of counterexamples and witnesses -/

/-- A prediction with every numeric field zero. -/
def basePrediction : Prediction :=
  { riskScore := 0, confidence := 0, videoScore := 0, audioScore := 0,
    ganFingerprint := 0, temporalConsistency := 0, modelVersion := "v1" }

/-- A prediction with the non-integer risk score `1/2` and confidence `50`. -/
def halfP : Prediction := { basePrediction with riskScore := 1/2, confidence := 50 }

/-- The spec's worked example `{risk:80, conf:95}`. -/
def exP1 : Prediction := { basePrediction with riskScore := 80, confidence := 95 }

/-- The spec's worked example `{risk:60, conf:85}`. -/
def exP2 : Prediction := { basePrediction with riskScore := 60, confidence := 85 }

/-- The spec's worked example `{risk:70, conf:90}`. -/
def exP3 : Prediction := { basePrediction with riskScore := 70, confidence := 90 }

/-- Risk score `0`, confidence `1`. -/
def cvP0 : Prediction := { basePrediction with riskScore := 0, confidence := 1 }

/-- Risk score `1`, confidence `1`. -/
def cvP1 : Prediction := { basePrediction with riskScore := 1, confidence := 1 }

/-- Audio score `10`. -/
def caP0 : Prediction :=
  { basePrediction with riskScore := 50, confidence := 50, audioScore := 10 }

/-- Audio score `30`. -/
def caP1 : Prediction :=
  { basePrediction with riskScore := 50, confidence := 50, audioScore := 30 }

/-! ### Detection agent (`detectDeepfake`, detection.agent.js lines 73-107) -/

/-- Environment `detectDeepfake` runs in: the `isMLServiceEnabled()`
configuration flag, the `checkMLServiceHealth()` answer, and the outcome
`callMLService` would produce if it were invoked. -/
structure DetectionEnv where
  mlServiceEnabled : Bool
  mlServiceHealthy : Bool
  mlServiceResult : Except String AggregateResult

/-- `detectDeepfake` from `detection.agent.js`.  The second component counts
how many times `callMLService` was invoked.  The `catch` block rewraps every
error as `Detection agent failed: <message>`. -/
def detectDeepfake (env : DetectionEnv) : Except String AggregateResult × ℕ :=
  if !env.mlServiceEnabled then
    (.error "Detection agent failed: ML service is disabled in configuration", 0)
  else if !env.mlServiceHealthy then
    (.error "Detection agent failed: ML service is not healthy", 0)
  else
    match env.mlServiceResult with
    | .ok r => (.ok r, 1)
    | .error e => (.error ("Detection agent failed: " ++ e), 1)

/-! ### Job queue (`queue.js`) -/

/-- Bull job states. -/
inductive JobState
  | waiting
  | active
  | completed
  | failed
  | delayed
  | paused
deriving DecidableEq, Repr

/-- The data of a scan job (`{scanId, batchId?, priority, delay}` as used by
`addScanJob` and `getBatchJobs`; `jobData.priority || 0` and
`jobData.delay || 0` collapse to the fields themselves once present). -/
structure ScanJobData where
  scanId : String
  batchId : Option String
  priority : ℤ
  delay : ℤ
deriving DecidableEq, Repr

/-- A job held by the queue. -/
structure QueueJob where
  id : ℕ
  data : ScanJobData
  state : JobState
  progress : ℚ
deriving DecidableEq, Repr

/-- The Bull queue: the reachability of the durable (Redis) store, the next
job id, and the stored jobs. -/
structure BullQueue where
  storeAvailable : Bool
  nextId : ℕ
  jobs : List QueueJob
deriving DecidableEq, Repr

/-- `backoff: { type: 'exponential', delay: 2000 }`. -/
structure BackoffOptions where
  type : String
  delay : ℤ
deriving DecidableEq, Repr

/-- `removeOnComplete: { age, count }`. -/
structure RemoveOnCompleteOptions where
  age : ℤ
  count : ℤ
deriving DecidableEq, Repr

/-- `removeOnFail: { age }`. -/
structure RemoveOnFailOptions where
  age : ℤ
deriving DecidableEq, Repr

/-- `defaultJobOptions` of the queue. -/
structure DefaultJobOptions where
  attempts : ℕ
  backoff : BackoffOptions
  removeOnComplete : RemoveOnCompleteOptions
  removeOnFail : RemoveOnFailOptions
deriving DecidableEq, Repr

/-- `settings` of the queue. -/
structure QueueSettings where
  maxStalledCount : ℕ
  retryProcessDelay : ℤ
deriving DecidableEq, Repr

/-- The whole options object of `new Queue('scan-processing', REDIS_URL, …)`. -/
structure QueueConfig where
  defaultJobOptions : DefaultJobOptions
  settings : QueueSettings
deriving DecidableEq, Repr

/-- The options passed by `createScanQueue` (queue.js lines 20-39). -/
def scanQueueConfig : QueueConfig :=
  { defaultJobOptions :=
      { attempts := 3
        backoff := { type := "exponential", delay := 2000 }
        removeOnComplete := { age := 24 * 3600, count := 1000 }
        removeOnFail := { age := 7 * 24 * 3600 } }
    settings := { maxStalledCount := 1, retryProcessDelay := 5000 } }

/-- Modelled from the spec: the exponential backoff policy,
`delay = base * 2^attempt` with a ceiling.  The formula itself lives in the
Bull library, outside this repository; the source only configures
`{ type: 'exponential', delay: 2000 }`. -/
def backoffDelay (base cap : ℤ) (attempt : ℕ) : ℤ := min cap (base * 2 ^ attempt)

/-- Modelled from the spec: the queue runtime requeues a job that stalled
while its stall count stays below `maxStalledCount`, and marks it failed
beyond that; `stalledCount` is the number of times it already stalled. -/
def stalledTransition (maxStalledCount stalledCount : ℕ) : JobState :=
  if stalledCount < maxStalledCount then .waiting else .failed

/-- Modelled from the spec: Bull's `queue.add` persists the job in the
durable store and returns it; the call rejects when the store is
unreachable.  A job with a positive delay is created in the `delayed`
state, otherwise `waiting`. -/
def BullQueue.addJob (q : BullQueue) (data : ScanJobData) :
    Except String (BullQueue × QueueJob) :=
  if q.storeAvailable then
    let job : QueueJob :=
      { id := q.nextId, data := data,
        state := if 0 < data.delay then .delayed else .waiting,
        progress := 0 }
    .ok ({ q with nextId := q.nextId + 1, jobs := q.jobs ++ [job] }, job)
  else
    .error "Error: connect ECONNREFUSED"

/-- `addScanJob` from `queue.js`: a null queue raises an explicit error;
otherwise the job is added, and a failure of `queue.add` is logged and
rethrown unchanged by the `catch` block. -/
def addScanJob (queue : Option BullQueue) (jobData : ScanJobData) :
    Except String (BullQueue × QueueJob) :=
  match queue with
  | none => .error "Queue not initialized. Redis server may not be running."
  | some q =>
      match q.addJob jobData with
      | .ok res => .ok res
      | .error e => .error e

/-- The state categories `getBatchJobs` passes to `queue.getJobs`:
`['waiting', 'active', 'completed', 'failed']`. -/
def batchQueryStates : List JobState := [.waiting, .active, .completed, .failed]

/-- Modelled from the spec: Bull's `queue.getJobs(types, 0, -1)` returns
every stored job whose state is among `types`. -/
def BullQueue.getJobsByTypes (q : BullQueue) (types : List JobState) : List QueueJob :=
  q.jobs.filter (fun j => decide (j.state ∈ types))

/-- The per-job record `getBatchJobs` builds:
`{ id, scanId, state, progress }`. -/
structure BatchJobRecord where
  id : ℕ
  scanId : String
  state : JobState
  progress : ℚ
deriving DecidableEq, Repr

/-- The record builder inside `getBatchJobs`'s `map`. -/
def toBatchRecord (j : QueueJob) : BatchJobRecord :=
  { id := j.id, scanId := j.data.scanId, state := j.state, progress := j.progress }

/-- `getBatchJobs` from `queue.js` lines 137-164. -/
def getBatchJobs (queue : Option BullQueue) (batchId : String) :
    Except String (List BatchJobRecord) :=
  match queue with
  | none => .error "Queue not initialized"
  | some q =>
      let jobs := q.getJobsByTypes batchQueryStates
      let batchJobs := jobs.filter (fun j => decide (j.data.batchId = some batchId))
      .ok (batchJobs.map toBatchRecord)

/-- A delayed job belonging to batch `batch-1`. -/
def delayedJob : QueueJob :=
  { id := 7
    data := { scanId := "scan-7", batchId := some "batch-1", priority := 0, delay := 5000 }
    state := .delayed
    progress := 0 }

/-- A waiting job belonging to batch `batch-1`. -/
def waitingJob : QueueJob :=
  { id := 8
    data := { scanId := "scan-8", batchId := some "batch-1", priority := 0, delay := 0 }
    state := .waiting
    progress := 0 }

/-- A queue holding only `delayedJob`. -/
def delayedQueue : BullQueue := { storeAvailable := true, nextId := 9, jobs := [delayedJob] }

/-- A queue holding `waitingJob` and `delayedJob`. -/
def mixedQueue : BullQueue :=
  { storeAvailable := true, nextId := 9, jobs := [waitingJob, delayedJob] }

/-- A reachable, empty queue. -/
def emptyQueue : BullQueue := { storeAvailable := true, nextId := 0, jobs := [] }

/-- A queue whose durable store is unreachable. -/
def downQueue : BullQueue := { storeAvailable := false, nextId := 0, jobs := [] }

/-- A sample job payload. -/
def sampleJobData : ScanJobData :=
  { scanId := "scan-1", batchId := none, priority := 0, delay := 0 }

/-- The job `addScanJob` creates on `emptyQueue` for `sampleJobData`. -/
def sampleAddedJob : QueueJob :=
  { id := 0, data := sampleJobData, state := .waiting, progress := 0 }

/-- The queue-and-job pair `addScanJob` returns on `emptyQueue`. -/
def sampleAddResult : BullQueue × QueueJob :=
  ({ storeAvailable := true, nextId := 1, jobs := [sampleAddedJob] }, sampleAddedJob)

/-! ### Socket layer (`scan.socket.js`) -/

/-- A connected Socket.IO client: its socket id and the rooms it joined. -/
structure SocketClient where
  id : String
  rooms : List String
deriving DecidableEq, Repr

/-- The Socket.IO server: the connected clients. -/
structure SocketServer where
  clients : List SocketClient
deriving DecidableEq, Repr

/-- The `data` part of a `scan:update` payload, one constructor per kind
(`emitScanProgress` / `emitScanComplete` / `emitScanFailed`). -/
inductive ScanUpdateData
  | progress (progress : ℚ) (stage : String)
  | complete (result : String)
  | failed (message : String)
deriving DecidableEq, Repr

/-- The payload of a `scan:update` event:
`{ scanId, ...data, timestamp }`. -/
structure ScanUpdatePayload where
  scanId : String
  data : ScanUpdateData
  timestamp : String
deriving DecidableEq, Repr

/-- One delivered event: which client received which event with which payload. -/
structure Delivery where
  clientId : String
  event : String
  payload : ScanUpdatePayload
deriving DecidableEq, Repr

/-- `io.emit(event, payload)`: delivered to every connected client. -/
def ioEmit (srv : SocketServer) (event : String) (payload : ScanUpdatePayload) :
    List Delivery :=
  srv.clients.map (fun c => { clientId := c.id, event := event, payload := payload })

/-- `io.to(room).emit(event, payload)`: delivered to the clients in `room`. -/
def ioToEmit (srv : SocketServer) (room event : String) (payload : ScanUpdatePayload) :
    List Delivery :=
  (srv.clients.filter (fun c => decide (room ∈ c.rooms))).map
    (fun c => { clientId := c.id, event := event, payload := payload })

/-- `emitScanUpdate` from `scan.socket.js` lines 35-48: with no initialized
server it logs and returns (no delivery); otherwise it calls `io.emit`, not
`io.to(...)`.  `ts` models `new Date().toISOString()`. -/
def emitScanUpdate (io : Option SocketServer) (scanId : String)
    (d : ScanUpdateData) (ts : String) : List Delivery :=
  match io with
  | none => []
  | some srv => ioEmit srv "scan:update" { scanId := scanId, data := d, timestamp := ts }

/-- `emitScanProgress`. -/
def emitScanProgress (io : Option SocketServer) (scanId : String)
    (progress : ℚ) (stage ts : String) : List Delivery :=
  emitScanUpdate io scanId (.progress progress stage) ts

/-- `emitScanComplete`. -/
def emitScanComplete (io : Option SocketServer) (scanId result ts : String) :
    List Delivery :=
  emitScanUpdate io scanId (.complete result) ts

/-- `emitScanFailed`. -/
def emitScanFailed (io : Option SocketServer) (scanId message ts : String) :
    List Delivery :=
  emitScanUpdate io scanId (.failed message) ts

/-- The `scan:subscribe` handler (scan.socket.js lines 150-156): when
`data.scanId` is truthy the socket joins room `scan:<scanId>`. -/
def scanSubscribe (c : SocketClient) (scanId : Option String) : SocketClient :=
  match scanId with
  | some sid => if sid = "" then c else { c with rooms := c.rooms ++ ["scan:" ++ sid] }
  | none => c

/-- A client subscribed to scan `a`. -/
def clientA : SocketClient := { id := "sock-a", rooms := ["scan:a"] }

/-- A client subscribed to nothing. -/
def clientB : SocketClient := { id := "sock-b", rooms := [] }

/-- A server with the two clients `clientA` and `clientB`. -/
def twoClientServer : SocketServer := { clients := [clientA, clientB] }

/-! ### Helper lemmas -/

lemma le_foldl_max (xs : List ℚ) (b : ℚ) : b ≤ xs.foldl max b := by
  induction xs generalizing b with
  | nil => simp
  | cons x xs ih => exact le_trans (le_max_left b x) (ih (max b x))

lemma mem_le_foldl_max (xs : List ℚ) (b x : ℚ) (hx : x ∈ xs) : x ≤ xs.foldl max b := by
  induction xs generalizing b with
  | nil => cases hx
  | cons y ys ih =>
      rcases List.mem_cons.1 hx with rfl | h
      · exact le_trans (le_max_right b x) (le_foldl_max ys (max b x))
      · exact ih (max b y) h

lemma foldl_min_le (xs : List ℚ) (b : ℚ) : xs.foldl min b ≤ b := by
  induction xs generalizing b with
  | nil => simp
  | cons x xs ih => exact le_trans (ih (min b x)) (min_le_left b x)

lemma foldl_min_le_mem (xs : List ℚ) (b x : ℚ) (hx : x ∈ xs) : xs.foldl min b ≤ x := by
  induction xs generalizing b with
  | nil => cases hx
  | cons y ys ih =>
      rcases List.mem_cons.1 hx with rfl | h
      · exact le_trans (foldl_min_le ys (min b x)) (min_le_right b x)
      · exact ih (min b y) h

lemma le_listMax (l : List ℚ) (x : ℚ) (hx : x ∈ l) : x ≤ listMax l := by
  cases l with
  | nil => cases hx
  | cons y ys =>
      rcases List.mem_cons.1 hx with rfl | h
      · exact le_foldl_max ys x
      · exact mem_le_foldl_max ys y x h

lemma listMin_le (l : List ℚ) (x : ℚ) (hx : x ∈ l) : listMin l ≤ x := by
  cases l with
  | nil => cases hx
  | cons y ys =>
      rcases List.mem_cons.1 hx with rfl | h
      · exact foldl_min_le ys x
      · exact foldl_min_le_mem ys y x h

lemma jsRound_le (q : ℚ) : (jsRound q : ℚ) ≤ q + 1/2 := by
  simpa [jsRound] using Int.floor_le (q + 1/2)

lemma le_jsRound (q : ℚ) : q - 1/2 ≤ (jsRound q : ℚ) := by
  have h := Int.sub_one_lt_floor (q + 1/2)
  have : q + 1/2 - 1 = q - 1/2 := by ring
  rw [this] at h
  exact le_of_lt (by simpa [jsRound] using h)

lemma jsRound_mono {v w : ℚ} (h : v ≤ w) : jsRound v ≤ jsRound w :=
  Int.floor_le_floor (by linarith)

lemma totalConfidence_cons (p : Prediction) (l : List Prediction) :
    totalConfidence (p :: l) = p.confidence + totalConfidence l := by
  simp [totalConfidence]

lemma map_mul_div_sum (l : List Prediction) (t : ℚ) :
    (l.map (fun p => p.riskScore * (p.confidence / t))).sum
      = (l.map (fun p => p.riskScore * p.confidence)).sum / t := by
  induction l with
  | nil => simp
  | cons p rest ih =>
      simp [List.map_cons, List.sum_cons, ih, add_div, mul_div_assoc]

lemma sum_mul_le_max (l : List Prediction) (M : ℚ)
    (hc : ∀ p ∈ l, 0 ≤ p.confidence) (hM : ∀ p ∈ l, p.riskScore ≤ M) :
    (l.map (fun p => p.riskScore * p.confidence)).sum ≤ M * totalConfidence l := by
  induction l with
  | nil => simp [totalConfidence]
  | cons p rest ih =>
      have h1 : p.riskScore * p.confidence ≤ M * p.confidence :=
        mul_le_mul_of_nonneg_right (hM p (by simp)) (hc p (by simp))
      have h2 := ih (fun q hq => hc q (List.mem_cons_of_mem p hq))
        (fun q hq => hM q (List.mem_cons_of_mem p hq))
      rw [List.map_cons, List.sum_cons, totalConfidence_cons, mul_add]
      exact add_le_add h1 h2

lemma min_sum_mul_le (l : List Prediction) (m : ℚ)
    (hc : ∀ p ∈ l, 0 ≤ p.confidence) (hm : ∀ p ∈ l, m ≤ p.riskScore) :
    m * totalConfidence l ≤ (l.map (fun p => p.riskScore * p.confidence)).sum := by
  induction l with
  | nil => simp [totalConfidence]
  | cons p rest ih =>
      have h1 : m * p.confidence ≤ p.riskScore * p.confidence :=
        mul_le_mul_of_nonneg_right (hm p (by simp)) (hc p (by simp))
      have h2 := ih (fun q hq => hc q (List.mem_cons_of_mem p hq))
        (fun q hq => hm q (List.mem_cons_of_mem p hq))
      rw [List.map_cons, List.sum_cons, totalConfidence_cons, mul_add]
      exact add_le_add h1 h2

lemma weightedRiskScore_le_max (ps : List Prediction)
    (hc : ∀ p ∈ ps, 0 ≤ p.confidence) (ht : 0 < totalConfidence ps) :
    weightedRiskScore ps ≤ listMax (ps.map (·.riskScore)) := by
  have hM : ∀ p ∈ ps, p.riskScore ≤ listMax (ps.map (·.riskScore)) := fun p hp =>
    le_listMax _ _ (List.mem_map_of_mem _ hp)
  rw [weightedRiskScore, map_mul_div_sum, div_le_iff₀ ht]
  exact sum_mul_le_max ps _ hc hM

lemma listMin_le_weightedRiskScore (ps : List Prediction)
    (hc : ∀ p ∈ ps, 0 ≤ p.confidence) (ht : 0 < totalConfidence ps) :
    listMin (ps.map (·.riskScore)) ≤ weightedRiskScore ps := by
  have hm : ∀ p ∈ ps, listMin (ps.map (·.riskScore)) ≤ p.riskScore := fun p hp =>
    listMin_le _ _ (List.mem_map_of_mem _ hp)
  rw [weightedRiskScore, map_mul_div_sum, le_div_iff₀ ht]
  exact min_sum_mul_le ps _ hc hm

/-! ### Claim theorems -/

/-- C1 (counterexample): two predictions with risk score `1/2` and
confidence `50` aggregate to the returned risk score `1`, while the
confidence-weighted mean of the risk scores is `1/2` and the maximum risk
score is `1/2 < 1`: because of `Math.round`, the returned `riskScore` is
neither the confidence-weighted mean nor within `[min(scores), max(scores)]`. -/
theorem c1_riskScore_not_weighted_mean :
    aggregatePredictions (some [halfP, halfP]) =
      .ok { riskScore := 1, confidence := 50, videoScore := 0, audioScore := 0,
            ganFingerprint := 0, temporalConsistency := 100, frameCount := 2,
            variance := 0, uncertainty := 0, modelVersion := "v1" } ∧
    weightedRiskScore [halfP, halfP] = 1/2 ∧
    listMax ([halfP, halfP].map (·.riskScore)) = 1/2 ∧
    (1/2 : ℚ) < 1 := by
  refine ⟨?_, ?_, ?_, by norm_num⟩
  · norm_num [aggregatePredictions, aggregateMulti, halfP, basePrediction,
      weightedRiskScore, totalConfidence, mean, listVariance, round2,
      uncertaintyOf, jsRound, jsOr, jsOrS]
  · norm_num [weightedRiskScore, totalConfidence, halfP, basePrediction]
  · norm_num [listMax, halfP, basePrediction]

/-- C1 (amended): for every prediction list with at least two elements,
nonnegative confidences, and positive total confidence, the returned
`riskScore` is the half-up rounding of the confidence-weighted mean of the
risk scores (unit weight = own confidence / total confidence); the weighted
mean itself lies within `[min(scores), max(scores)]`, so the returned
`riskScore` lies within `[min(scores) - 1/2, max(scores) + 1/2]`. -/
theorem c1_weighted_mean_bounds (p₀ p₁ : Prediction) (rest : List Prediction)
    (hc : ∀ p ∈ p₀ :: p₁ :: rest, 0 ≤ p.confidence)
    (ht : 0 < totalConfidence (p₀ :: p₁ :: rest)) :
    aggregatePredictions (some (p₀ :: p₁ :: rest)) = .ok (aggregateMulti p₀ p₁ rest) ∧
    (aggregateMulti p₀ p₁ rest).riskScore
      = ((jsRound (weightedRiskScore (p₀ :: p₁ :: rest)) : ℤ) : ℚ) ∧
    listMin ((p₀ :: p₁ :: rest).map (·.riskScore)) ≤ weightedRiskScore (p₀ :: p₁ :: rest) ∧
    weightedRiskScore (p₀ :: p₁ :: rest) ≤ listMax ((p₀ :: p₁ :: rest).map (·.riskScore)) ∧
    listMin ((p₀ :: p₁ :: rest).map (·.riskScore)) - 1/2
      ≤ (aggregateMulti p₀ p₁ rest).riskScore ∧
    (aggregateMulti p₀ p₁ rest).riskScore
      ≤ listMax ((p₀ :: p₁ :: rest).map (·.riskScore)) + 1/2 := by
  have hmin := listMin_le_weightedRiskScore (p₀ :: p₁ :: rest) hc ht
  have hmax := weightedRiskScore_le_max (p₀ :: p₁ :: rest) hc ht
  have hrs : (aggregateMulti p₀ p₁ rest).riskScore
      = ((jsRound (weightedRiskScore (p₀ :: p₁ :: rest)) : ℤ) : ℚ) := rfl
  have hlo := le_jsRound (weightedRiskScore (p₀ :: p₁ :: rest))
  have hhi := jsRound_le (weightedRiskScore (p₀ :: p₁ :: rest))
  exact ⟨rfl, hrs, hmin, hmax, by rw [hrs]; linarith, by rw [hrs]; linarith⟩

/-- C1 (witness): the amended claim evaluated on the spec's worked example
`{risk:80, conf:95}, {risk:60, conf:85}, {risk:70, conf:90}`. -/
theorem c1_weighted_mean_bounds_witness :
    aggregatePredictions (some (exP1 :: exP2 :: [exP3])) = .ok (aggregateMulti exP1 exP2 [exP3]) ∧
    (aggregateMulti exP1 exP2 [exP3]).riskScore
      = ((jsRound (weightedRiskScore (exP1 :: exP2 :: [exP3])) : ℤ) : ℚ) ∧
    listMin ((exP1 :: exP2 :: [exP3]).map (·.riskScore)) ≤ weightedRiskScore (exP1 :: exP2 :: [exP3]) ∧
    weightedRiskScore (exP1 :: exP2 :: [exP3]) ≤ listMax ((exP1 :: exP2 :: [exP3]).map (·.riskScore)) ∧
    listMin ((exP1 :: exP2 :: [exP3]).map (·.riskScore)) - 1/2
      ≤ (aggregateMulti exP1 exP2 [exP3]).riskScore ∧
    (aggregateMulti exP1 exP2 [exP3]).riskScore
      ≤ listMax ((exP1 :: exP2 :: [exP3]).map (·.riskScore)) + 1/2 :=
  c1_weighted_mean_bounds exP1 exP2 [exP3]
    (by intro p hp; fin_cases hp <;> norm_num [exP1, exP2, exP3, basePrediction])
    (by norm_num [totalConfidence, exP1, exP2, exP3, basePrediction])

/-- C2: aggregating a missing (`null`) or empty prediction list fails with
the explicit error `No predictions to aggregate`; since the result is an
`error`, no default or zero-filled result is returned. -/
theorem c2_empty_aggregation_error :
    aggregatePredictions none = .error "No predictions to aggregate" ∧
    aggregatePredictions (some []) = .error "No predictions to aggregate" :=
  ⟨rfl, rfl⟩

/-- C3: a single prediction passes through unchanged, extended only with
`frameCount` (the unit count) `1`, `variance` `0`, and `uncertainty` `0`. -/
theorem c3_single_passthrough (p : Prediction) :
    aggregatePredictions (some [p]) =
      .ok { riskScore := p.riskScore, confidence := p.confidence,
            videoScore := p.videoScore, audioScore := p.audioScore,
            ganFingerprint := p.ganFingerprint,
            temporalConsistency := p.temporalConsistency,
            frameCount := 1, variance := 0, uncertainty := 0,
            modelVersion := p.modelVersion } := rfl

/-- C4 (counterexample): for the risk scores `0, 1, 1` (confidences all `1`)
the population variance is `2/9`, but the returned `variance` field is the
two-decimal rounding `0.22 = 11/50 < 2/9`, and the returned `uncertainty` is
`2`, not `min(100, (2/9)*10) = 20/9 > 2`: the exact equalities of the claim
fail because both fields are rounded. -/
theorem c4_variance_rounded :
    aggregatePredictions (some [cvP0, cvP1, cvP1]) =
      .ok { riskScore := 1, confidence := 1, videoScore := 0, audioScore := 0,
            ganFingerprint := 0, temporalConsistency := 100, frameCount := 3,
            variance := 11/50, uncertainty := 2, modelVersion := "v1" } ∧
    listVariance ([cvP0, cvP1, cvP1].map (·.riskScore)) = 2/9 ∧
    min 100 (listVariance ([cvP0, cvP1, cvP1].map (·.riskScore)) * 10) = 20/9 ∧
    (11/50 : ℚ) < 2/9 ∧ (2 : ℚ) < 20/9 := by
  refine ⟨?_, ?_, ?_, by norm_num, by norm_num⟩
  · norm_num [aggregatePredictions, aggregateMulti, cvP0, cvP1, basePrediction,
      weightedRiskScore, totalConfidence, mean, listVariance, round2,
      uncertaintyOf, jsRound, jsOr, jsOrS]
  · norm_num [listVariance, mean, cvP0, cvP1, basePrediction]
  · norm_num [listVariance, mean, cvP0, cvP1, basePrediction]

/-- C4 (amended): for every prediction list with at least two elements, the
returned `variance` field is the population variance of the raw risk scores
rounded to two decimals, the returned `uncertainty` field is
`round(min(100, variance_raw * 10))` (scaling constant 10, computed from the
unrounded variance), and that uncertainty is monotonically non-decreasing in
the variance: `v ≤ w → uncertaintyOf v ≤ uncertaintyOf w`. -/
theorem c4_variance_uncertainty (p₀ p₁ : Prediction) (rest : List Prediction)
    (v w : ℚ) (hvw : v ≤ w) :
    aggregatePredictions (some (p₀ :: p₁ :: rest)) = .ok (aggregateMulti p₀ p₁ rest) ∧
    (aggregateMulti p₀ p₁ rest).variance
      = round2 (listVariance ((p₀ :: p₁ :: rest).map (·.riskScore))) ∧
    (aggregateMulti p₀ p₁ rest).uncertainty
      = uncertaintyOf (listVariance ((p₀ :: p₁ :: rest).map (·.riskScore))) ∧
    uncertaintyOf v ≤ uncertaintyOf w := by
  refine ⟨rfl, rfl, rfl, ?_⟩
  have hmin : min 100 (v * 10) ≤ min 100 (w * 10) :=
    min_le_min le_rfl (by linarith)
  unfold uncertaintyOf
  exact_mod_cast jsRound_mono hmin

/-- C4 (witness): the amended claim evaluated on the spec's worked example
predictions and on the variances `0 ≤ 2/9`. -/
theorem c4_variance_uncertainty_witness :
    aggregatePredictions (some (exP1 :: exP2 :: [exP3])) = .ok (aggregateMulti exP1 exP2 [exP3]) ∧
    (aggregateMulti exP1 exP2 [exP3]).variance
      = round2 (listVariance ((exP1 :: exP2 :: [exP3]).map (·.riskScore))) ∧
    (aggregateMulti exP1 exP2 [exP3]).uncertainty
      = uncertaintyOf (listVariance ((exP1 :: exP2 :: [exP3]).map (·.riskScore))) ∧
    uncertaintyOf 0 ≤ uncertaintyOf (2/9) :=
  c4_variance_uncertainty exP1 exP2 [exP3] 0 (2/9) (by norm_num)

/-- C5 (counterexample): two predictions with audio scores `10` and `30`
aggregate to `audioScore = 10` (the first unit's audio score), while the
unweighted mean of the audio subscores is `20 ≠ 10`: the audio subscore of
the aggregate is not the mean across units. -/
theorem c5_audio_not_mean :
    aggregatePredictions (some [caP0, caP1]) =
      .ok { riskScore := 50, confidence := 50, videoScore := 0, audioScore := 10,
            ganFingerprint := 0, temporalConsistency := 100, frameCount := 2,
            variance := 0, uncertainty := 0, modelVersion := "v1" } ∧
    mean ([caP0, caP1].map (·.audioScore)) = 20 ∧
    (10 : ℚ) < 20 := by
  refine ⟨?_, ?_, by norm_num⟩
  · norm_num [aggregatePredictions, aggregateMulti, caP0, caP1, basePrediction,
      weightedRiskScore, totalConfidence, mean, listVariance, round2,
      uncertaintyOf, jsRound, jsOr, jsOrS]
  · norm_num [mean, caP0, caP1, basePrediction]

/-- C5 (amended): for every prediction list with at least two elements, the
video and fingerprint subscores of the aggregate are the half-up-rounded
unweighted means of those subscores across units, the temporal subscore is
the rounded unweighted mean with a zero temporal score falling through to
the default `100`, and the audio subscore is the first unit's audio score,
not a mean. -/
theorem c5_subscore_means (p₀ p₁ : Prediction) (rest : List Prediction) :
    aggregatePredictions (some (p₀ :: p₁ :: rest)) = .ok (aggregateMulti p₀ p₁ rest) ∧
    (aggregateMulti p₀ p₁ rest).videoScore
      = ((jsRound (mean ((p₀ :: p₁ :: rest).map (·.videoScore))) : ℤ) : ℚ) ∧
    (aggregateMulti p₀ p₁ rest).ganFingerprint
      = ((jsRound (mean ((p₀ :: p₁ :: rest).map (·.ganFingerprint))) : ℤ) : ℚ) ∧
    (aggregateMulti p₀ p₁ rest).temporalConsistency
      = ((jsRound (mean ((p₀ :: p₁ :: rest).map (fun p => jsOr p.temporalConsistency 100))) : ℤ) : ℚ) ∧
    (aggregateMulti p₀ p₁ rest).audioScore = p₀.audioScore :=
  ⟨rfl, rfl, rfl, rfl, rfl⟩

/-- C6: whenever the ML service is enabled but the health check reports it
unhealthy, `detectDeepfake` fails immediately with the service-unavailable
error, and `callMLService` is invoked zero times. -/
theorem c6_unhealthy_fails_fast (env : DetectionEnv)
    (he : env.mlServiceEnabled = true) (hh : env.mlServiceHealthy = false) :
    detectDeepfake env = (.error "Detection agent failed: ML service is not healthy", 0) := by
  simp [detectDeepfake, he, hh]

/-- C6 (witness): a concrete environment with the service enabled and the
health check negative. -/
theorem c6_unhealthy_fails_fast_witness :
    detectDeepfake { mlServiceEnabled := true, mlServiceHealthy := false,
                     mlServiceResult := .error "unused" }
      = (.error "Detection agent failed: ML service is not healthy", 0) :=
  c6_unhealthy_fails_fast
    { mlServiceEnabled := true, mlServiceHealthy := false, mlServiceResult := .error "unused" }
    rfl rfl

/-- C7: enqueueing on a null (uninitialized) queue raises the explicit error
`Queue not initialized. Redis server may not be running.`; enqueueing on a
queue whose durable store is unreachable propagates the store error rather
than silently succeeding; and whenever `addScanJob` reports success, the
returned job is stored in the returned queue. -/
theorem c7_enqueue_fails_loudly (jd : ScanJobData) (q : BullQueue)
    (hq : q.storeAvailable = false) (qa : BullQueue)
    (res : BullQueue × QueueJob) (hres : addScanJob (some qa) jd = .ok res) :
    addScanJob none jd = .error "Queue not initialized. Redis server may not be running." ∧
    addScanJob (some q) jd = .error "Error: connect ECONNREFUSED" ∧
    res.2 ∈ res.1.jobs := by
  refine ⟨rfl, ?_, ?_⟩
  · simp [addScanJob, BullQueue.addJob, hq]
  · by_cases ha : qa.storeAvailable
    · simp only [addScanJob, BullQueue.addJob, ha, if_true] at hres
      obtain rfl : _ = res := Except.ok.inj hres
      simp
    · simp [addScanJob, BullQueue.addJob, ha] at hres

/-- C7 (witness): the theorem evaluated on `sampleJobData`, the unreachable
`downQueue` and the reachable `emptyQueue`. -/
theorem c7_enqueue_fails_loudly_witness :
    addScanJob none sampleJobData
      = .error "Queue not initialized. Redis server may not be running." ∧
    addScanJob (some downQueue) sampleJobData = .error "Error: connect ECONNREFUSED" ∧
    sampleAddResult.2 ∈ sampleAddResult.1.jobs :=
  c7_enqueue_fails_loudly sampleJobData downQueue rfl emptyQueue sampleAddResult
    (by simp [addScanJob, BullQueue.addJob, emptyQueue, sampleJobData,
      sampleAddResult, sampleAddedJob])

/-- C8: the queue configured by `createScanQueue` sets default retry
attempts to 3 with exponential backoff at base delay 2000 ms (the policy
`delay = base * 2^attempt` capped at a ceiling never exceeds the ceiling nor
the uncapped exponential), retains completed jobs for a bounded window both
age-based (24 h) and count-based (1000), retains failed jobs longer (7 days),
and with `maxStalledCount = 1` a job that stalls once is requeued while a
job that stalls a second time is marked failed. -/
theorem c8_queue_policy :
    scanQueueConfig.defaultJobOptions.attempts = 3 ∧
    scanQueueConfig.defaultJobOptions.backoff.type = "exponential" ∧
    scanQueueConfig.defaultJobOptions.backoff.delay = 2000 ∧
    scanQueueConfig.defaultJobOptions.removeOnComplete.age = 24 * 3600 ∧
    scanQueueConfig.defaultJobOptions.removeOnComplete.count = 1000 ∧
    scanQueueConfig.defaultJobOptions.removeOnFail.age = 7 * 24 * 3600 ∧
    scanQueueConfig.defaultJobOptions.removeOnComplete.age
      < scanQueueConfig.defaultJobOptions.removeOnFail.age ∧
    scanQueueConfig.settings.maxStalledCount = 1 ∧
    stalledTransition scanQueueConfig.settings.maxStalledCount 0 = .waiting ∧
    stalledTransition scanQueueConfig.settings.maxStalledCount 1 = .failed ∧
    ∀ cap : ℤ, ∀ attempt : ℕ,
      backoffDelay scanQueueConfig.defaultJobOptions.backoff.delay cap attempt ≤ cap ∧
      backoffDelay scanQueueConfig.defaultJobOptions.backoff.delay cap attempt
        ≤ 2000 * 2 ^ attempt := by
  refine ⟨rfl, rfl, rfl, rfl, rfl, rfl, by norm_num [scanQueueConfig], rfl, rfl, rfl, ?_⟩
  intro cap attempt
  exact ⟨min_le_left _ _, min_le_right _ _⟩

/-- C9 (counterexample): `delayedQueue` holds exactly one job, `delayedJob`,
which belongs to batch `batch-1` but is in the `delayed` state; querying the
batch returns the empty list, so not every job of the batch is covered
whatever its state — `getBatchJobs` only queries the `waiting`, `active`,
`completed` and `failed` states. -/
theorem c9_delayed_job_missed :
    getBatchJobs (some delayedQueue) "batch-1" = .ok [] ∧
    delayedJob ∈ delayedQueue.jobs ∧
    delayedJob.data.batchId = some "batch-1" ∧
    delayedJob.state = .delayed ∧
    delayedQueue.jobs.length = 1 := by
  refine ⟨?_, by simp [delayedQueue], rfl, rfl, rfl⟩
  simp [getBatchJobs, BullQueue.getJobsByTypes, batchQueryStates, delayedQueue, delayedJob]

/-- C9 (amended): for every queue and batch identifier, `getBatchJobs`
returns exactly the element-wise per-job records of the jobs whose `batchId`
matches and whose state is `waiting`, `active`, `completed` or `failed` —
one record per such job, in order, with its individual state, never a single
combined state; its length is the number of such jobs; and every matching
job in one of those four states contributes its record.  Jobs of the batch
in the `delayed` (or `paused`) state are not covered. -/
theorem c9_batch_elementwise (q : BullQueue) (bid : String) (j : QueueJob)
    (hj : j ∈ q.jobs) (hb : j.data.batchId = some bid)
    (hs : j.state ∈ batchQueryStates) :
    getBatchJobs (some q) bid =
      .ok ((q.jobs.filter (fun jb =>
        decide (jb.data.batchId = some bid) && decide (jb.state ∈ batchQueryStates))).map
          toBatchRecord) ∧
    toBatchRecord j ∈
      (q.jobs.filter (fun jb =>
        decide (jb.data.batchId = some bid) && decide (jb.state ∈ batchQueryStates))).map
          toBatchRecord ∧
    ((q.jobs.filter (fun jb =>
        decide (jb.data.batchId = some bid) && decide (jb.state ∈ batchQueryStates))).map
          toBatchRecord).length
      = q.jobs.countP (fun jb =>
          decide (jb.data.batchId = some bid) && decide (jb.state ∈ batchQueryStates)) := by
  refine ⟨?_, ?_, ?_⟩
  · simp [getBatchJobs, BullQueue.getJobsByTypes, List.filter_filter]
  · exact List.mem_map_of_mem toBatchRecord
      (List.mem_filter.2 ⟨hj, by simp [hb, hs]⟩)
  · rw [List.length_map, List.countP_eq_length_filter]

/-- C9 (witness): the amended claim evaluated on `mixedQueue` and its
waiting member `waitingJob` of batch `batch-1`. -/
theorem c9_batch_elementwise_witness :
    getBatchJobs (some mixedQueue) "batch-1" =
      .ok ((mixedQueue.jobs.filter (fun jb =>
        decide (jb.data.batchId = some "batch-1") && decide (jb.state ∈ batchQueryStates))).map
          toBatchRecord) ∧
    toBatchRecord waitingJob ∈
      (mixedQueue.jobs.filter (fun jb =>
        decide (jb.data.batchId = some "batch-1") && decide (jb.state ∈ batchQueryStates))).map
          toBatchRecord ∧
    ((mixedQueue.jobs.filter (fun jb =>
        decide (jb.data.batchId = some "batch-1") && decide (jb.state ∈ batchQueryStates))).map
          toBatchRecord).length
      = mixedQueue.jobs.countP (fun jb =>
          decide (jb.data.batchId = some "batch-1") && decide (jb.state ∈ batchQueryStates)) :=
  c9_batch_elementwise mixedQueue "batch-1" waitingJob
    (by simp [mixedQueue]) rfl (by simp [batchQueryStates, waitingJob])

/-- C10: every `scan:update` event published through `emitScanUpdate` is
broadcast to every connected client, independent of the rooms (scan
subscriptions) the clients joined: each connected client receives the event,
rewriting every client's room list arbitrarily (in particular, subscribing
any client to any scan via `scanSubscribe`) leaves the delivery list
unchanged, and the receivers are exactly all connected clients.  The
`scan:<scanId>` room joined by the `scan:subscribe` handler is never
consulted when publishing. -/
theorem c10_broadcast_ignores_rooms (srv : SocketServer) (sid sid₂ : String)
    (d : ScanUpdateData) (ts : String) (c : SocketClient) (hc : c ∈ srv.clients)
    (f : SocketClient → List String) :
    ({ clientId := c.id, event := "scan:update",
       payload := { scanId := sid, data := d, timestamp := ts } } : Delivery)
      ∈ emitScanUpdate (some srv) sid d ts ∧
    emitScanUpdate
      (some { clients := srv.clients.map (fun cl => { cl with rooms := f cl }) }) sid d ts
      = emitScanUpdate (some srv) sid d ts ∧
    emitScanUpdate
      (some { clients := srv.clients.map (fun cl => scanSubscribe cl (some sid₂)) }) sid d ts
      = emitScanUpdate (some srv) sid d ts ∧
    (emitScanUpdate (some srv) sid d ts).map (·.clientId) = srv.clients.map (·.id) := by
  refine ⟨List.mem_map_of_mem _ hc, ?_, ?_, ?_⟩
  · simp [emitScanUpdate, ioEmit, List.map_map, Function.comp]
  · simp [emitScanUpdate, ioEmit, List.map_map, Function.comp, scanSubscribe]
    rcases eq_or_ne sid₂ "" with h | h <;> simp [h]
  · simp [emitScanUpdate, ioEmit, List.map_map, Function.comp]

/-- C10 (witness): the theorem evaluated on `twoClientServer`, whose client
`clientA` subscribed to scan `a` and client `clientB` to nothing. -/
theorem c10_broadcast_ignores_rooms_witness :
    ({ clientId := clientA.id, event := "scan:update",
       payload := { scanId := "b", data := .complete "ok", timestamp := "t0" } } : Delivery)
      ∈ emitScanUpdate (some twoClientServer) "b" (.complete "ok") "t0" ∧
    emitScanUpdate
      (some { clients := twoClientServer.clients.map (fun cl => { cl with rooms := [] }) })
      "b" (.complete "ok") "t0"
      = emitScanUpdate (some twoClientServer) "b" (.complete "ok") "t0" ∧
    emitScanUpdate
      (some { clients := twoClientServer.clients.map (fun cl => scanSubscribe cl (some "b")) })
      "b" (.complete "ok") "t0"
      = emitScanUpdate (some twoClientServer) "b" (.complete "ok") "t0" ∧
    (emitScanUpdate (some twoClientServer) "b" (.complete "ok") "t0").map (·.clientId)
      = twoClientServer.clients.map (·.id) :=
  c10_broadcast_ignores_rooms twoClientServer "b" "b" (.complete "ok") "t0" clientA
    (by simp [twoClientServer]) (fun _ => [])

end DeepfakeDetection
